import Mathlib

/-!
Shallow embedding of `shortcut_tool.py`, a desktop utility that shows a
cheat-sheet of keyboard shortcuts.  The persistence layer (`ConfigManager`),
the data model (`ShortcutItem`, `AppConfig`) and the UI event handlers
(`ShortcutOverlay`, `SettingsWindow`, `ShortcutApp`) are translated into pure
Lean functions over an explicit application state.
-/

set_option autoImplicit false

/-- A JSON value, as produced by Python's `json.load`.  Numbers are modelled
as integers; the program never manipulates numeric JSON values. -/
inductive JsonVal where
  | null
  | bool (b : Bool)
  | num (n : Int)
  | str (s : String)
  | arr (xs : List JsonVal)
  | obj (kvs : List (String × JsonVal))

/-- Whether a JSON value is an object (a Python `dict`). -/
def JsonVal.isObj : JsonVal → Bool
  | .obj _ => true
  | _ => false

/-- The state of the persisted file at `CONFIG_PATH`: absent, present but not
valid JSON text, or present with a parsed JSON value.  (`json.load` on a file
whose text is not valid JSON raises `JSONDecodeError`; a Python dict cannot
hold duplicate keys, so an `obj` arising from parsing has distinct keys.) -/
inductive Persisted where
  | missing
  | invalid
  | json (v : JsonVal)

/-- The Python exceptions that the load path can raise. -/
inductive PyError where
  | jsonDecodeError
  | attributeError
  | keyError (k : String)
  | typeError

/-- `d.get(k, dflt)` on a Python dict: the value bound to `k`, or `dflt` when
the key is absent. -/
def dictGet (kvs : List (String × JsonVal)) (k : String) (dflt : JsonVal) : JsonVal :=
  (kvs.lookup k).getD dflt

/-- Iterating a Python value (the `for item in data.get("shortcuts", [])`
comprehension): a list yields its elements, a string yields its characters as
one-character strings, a dict yields its keys; other values raise
`TypeError`. -/
def pyIter : JsonVal → Except PyError (List JsonVal)
  | .arr xs => .ok xs
  | .str s => .ok (s.data.map fun c => .str (String.singleton c))
  | .obj kvs => .ok (kvs.map fun kv => .str kv.1)
  | _ => .error .typeError

/-- `item[k]` for a string key `k`: dict lookup, raising `KeyError` when the
key is absent; any non-dict value raises `TypeError`. -/
def pyGetItem (v : JsonVal) (k : String) : Except PyError JsonVal :=
  match v with
  | .obj kvs =>
    match kvs.lookup k with
    | some w => .ok w
    | none => .error (.keyError k)
  | _ => .error .typeError

/-- Extraction of a string field.  The dataclass declarations annotate
`title`, `description` and `hotkey` with type `str`, so the embedding reads
these fields at type `String`. -/
def asStr : JsonVal → Except PyError String
  | .str s => .ok s
  | _ => .error .typeError

/-- One row of the cheat sheet (dataclass `ShortcutItem`). -/
structure ShortcutItem where
  title : String
  description : String
deriving DecidableEq

/-- The configuration record (dataclass `AppConfig`), with the dataclass
field defaults. -/
structure AppConfig where
  hotkey : String := "ctrl+shift+s"
  shortcuts : List ShortcutItem := []
deriving DecidableEq

/-- The JSON payload written for one `ShortcutItem`
(`{"title": item.title, "description": item.description}`). -/
def itemPayload (it : ShortcutItem) : JsonVal :=
  .obj [("title", .str it.title), ("description", .str it.description)]

/-- `ConfigManager.save`: the JSON value written to the persisted file
(`json.dump` always writes valid JSON text). -/
def ConfigManager.save (config : AppConfig) : JsonVal :=
  .obj [("hotkey", .str config.hotkey),
        ("shortcuts", .arr (config.shortcuts.map itemPayload))]

/-- `ShortcutItem(title=item["title"], description=item["description"])` for
one element of the `shortcuts` comprehension; Python evaluates the `title`
subscript first. -/
def loadItem (item : JsonVal) : Except PyError ShortcutItem :=
  match pyGetItem item "title" with
  | .error e => .error e
  | .ok tv =>
    match pyGetItem item "description" with
    | .error e => .error e
    | .ok dv =>
      match asStr tv with
      | .error e => .error e
      | .ok t =>
        match asStr dv with
        | .error e => .error e
        | .ok d => .ok { title := t, description := d }

/-- The `shortcuts` list comprehension, left to right. -/
def loadItems : List JsonVal → Except PyError (List ShortcutItem)
  | [] => .ok []
  | x :: xs =>
    match loadItem x with
    | .error e => .error e
    | .ok it =>
      match loadItems xs with
      | .error e => .error e
      | .ok rest => .ok (it :: rest)

/-- `ConfigManager.load`: when the file is absent, the seeded default
configuration; otherwise `json.load` the file (raising on invalid text),
build the shortcut list from `data.get("shortcuts", [])`, and read the
hotkey from `data.get("hotkey", "ctrl+shift+s")`.  A parsed value that is
not a dict raises `AttributeError` at `data.get`. -/
def ConfigManager.load (p : Persisted) : Except PyError AppConfig :=
  match p with
  | .missing =>
    .ok { shortcuts := [{ title := "Win+E", description := "Open File Explorer" },
                        { title := "Win+L", description := "Lock the PC" }] }
  | .invalid => .error .jsonDecodeError
  | .json data =>
    match data with
    | .obj kvs =>
      match pyIter (dictGet kvs "shortcuts" (.arr [])) with
      | .error e => .error e
      | .ok items =>
        match loadItems items with
        | .error e => .error e
        | .ok shortcuts =>
          match asStr (dictGet kvs "hotkey" (.str "ctrl+shift+s")) with
          | .error e => .error e
          | .ok hk => .ok { hotkey := hk, shortcuts := shortcuts }
    | _ => .error .attributeError

theorem loadItem_itemPayload (it : ShortcutItem) : loadItem (itemPayload it) = .ok it := rfl

theorem loadItems_map_itemPayload (l : List ShortcutItem) :
    loadItems (l.map itemPayload) = .ok l := by
  induction l with
  | nil => rfl
  | cons it rest ih => simp [loadItems, loadItem_itemPayload, ih]

/-- Claim C1: saving any configuration and loading it back from the same path
returns a configuration with the identical hotkey and the identical entry
list, in the same order. -/
theorem save_load_roundtrip (c : AppConfig) :
    ConfigManager.load (.json (ConfigManager.save c)) = .ok c := by
  simp [ConfigManager.load, ConfigManager.save, dictGet, List.lookup,
    pyIter, loadItems_map_itemPayload, asStr]

/-- Claim C2: loading when the persisted file does not exist returns the
default hotkey and exactly the two seeded entries, in order. -/
theorem load_missing_defaults :
    ConfigManager.load .missing =
      .ok { hotkey := "ctrl+shift+s",
            shortcuts := [{ title := "Win+E", description := "Open File Explorer" },
                          { title := "Win+L", description := "Lock the PC" }] } := rfl

/-- A `messagebox` dialog shown to the user (`showerror` / `showinfo`). -/
inductive Prompt where
  | error (title message : String)
  | info (title message : String)
deriving DecidableEq

/-- Python `str.strip()` with no argument: remove whitespace from both
ends. -/
def pyStrip (s : String) : String :=
  ⟨((s.data.dropWhile Char.isWhitespace).reverse.dropWhile Char.isWhitespace).reverse⟩

/-- The application state: the one in-memory `AppConfig` shared by all
windows, the persisted file, the list of active `keyboard` hooks in
installation order, the overlay's visibility (the overlay window is created
withdrawn and only ever withdrawn or deiconified, so `window.state()` is
`"withdrawn"` exactly when `overlayVisible` is `false`), the rows of the two
`Treeview` tables, and the dialogs shown so far. -/
structure AppState where
  config : AppConfig
  file : Persisted
  hooks : List String
  overlayVisible : Bool
  overlayTree : List (String × String)
  settingsTree : List (String × String)
  prompts : List Prompt

/-- `ShortcutOverlay.refresh`: clear the overlay table and re-insert one row
per configured shortcut, in list order. -/
def ShortcutOverlay.refresh (s : AppState) : AppState :=
  { s with overlayTree := s.config.shortcuts.map fun it => (it.title, it.description) }

/-- `ShortcutOverlay.show`: refresh the table, then deiconify the window. -/
def ShortcutOverlay.show (s : AppState) : AppState :=
  { ShortcutOverlay.refresh s with overlayVisible := true }

/-- `ShortcutOverlay.hide`: withdraw the window. -/
def ShortcutOverlay.hide (s : AppState) : AppState :=
  { s with overlayVisible := false }

/-- `ShortcutOverlay.toggle`: show when `window.state() == "withdrawn"`,
otherwise hide. -/
def ShortcutOverlay.toggle (s : AppState) : AppState :=
  if s.overlayVisible = false then ShortcutOverlay.show s else ShortcutOverlay.hide s

/-- `SettingsWindow.refresh`: rebuild the settings table from the list. -/
def SettingsWindow.refresh (s : AppState) : AppState :=
  { s with settingsTree := s.config.shortcuts.map fun it => (it.title, it.description) }

/-- `SettingsWindow.add_item`.  The two `askstring` dialog results are
passed in (`none` models Cancel).  `if not title` returns early on both
`None` and the empty string; a `description` that is not `None` is accepted
even when empty. -/
def SettingsWindow.add_item (title description : Option String) (s : AppState) : AppState :=
  match title with
  | none => s
  | some t =>
    if t = "" then s
    else
      match description with
      | none => s
      | some d =>
        SettingsWindow.refresh
          { s with config :=
              { s.config with shortcuts := s.config.shortcuts ++ [{ title := t, description := d }] } }

/-- `SettingsWindow.edit_item`.  `selected` is the tree index of the selected
row (`none` models an empty selection); the tree mirrors the list, so a
selected index is always in range.  `List.set` leaves the list unchanged out
of range, a case the program never reaches. -/
def SettingsWindow.edit_item (selected : Option Nat) (title description : Option String)
    (s : AppState) : AppState :=
  match selected with
  | none => { s with prompts := s.prompts ++ [.info "Select" "Please select a shortcut to edit."] }
  | some index =>
    match title with
    | none => s
    | some t =>
      if t = "" then s
      else
        match description with
        | none => s
        | some d =>
          SettingsWindow.refresh
            { s with config :=
                { s.config with shortcuts := s.config.shortcuts.set index { title := t, description := d } } }

/-- `SettingsWindow.remove_item`: `del self.config.shortcuts[index]` at the
selected tree index.  The tree mirrors the list, so a selected index is
always in range; `List.eraseIdx` agrees with `del` there. -/
def SettingsWindow.remove_item (selected : Option Nat) (s : AppState) : AppState :=
  match selected with
  | none => { s with prompts := s.prompts ++ [.info "Select" "Please select a shortcut to remove."] }
  | some index =>
    SettingsWindow.refresh
      { s with config := { s.config with shortcuts := s.config.shortcuts.eraseIdx index } }

/-- `keyboard.unhook_all()`: every installed binding is removed. -/
def unhook_all (s : AppState) : AppState :=
  { s with hooks := [] }

/-- `keyboard.add_hotkey(hk, ...)`: one more binding is installed. -/
def add_hotkey (hk : String) (s : AppState) : AppState :=
  { s with hooks := s.hooks ++ [hk] }

/-- `ShortcutApp.register_hotkey`: `unhook_all` first, then `add_hotkey` for
the current configured hotkey. -/
def ShortcutApp.register_hotkey (s : AppState) : AppState :=
  add_hotkey s.config.hotkey (unhook_all s)

/-- `ShortcutApp.on_save`: write the configuration to the file, then
re-register the hotkey. -/
def ShortcutApp.on_save (s : AppState) : AppState :=
  ShortcutApp.register_hotkey { s with file := .json (ConfigManager.save s.config) }

/-- `SettingsWindow.save`: strip the entered hotkey text; when empty, show
an error dialog and return without touching anything else; otherwise store
the stripped hotkey in the configuration, run the `on_save` callback, and
show the confirmation dialog. -/
def SettingsWindow.save (entered : String) (s : AppState) : AppState :=
  let hotkey := pyStrip entered
  if hotkey = "" then
    { s with prompts := s.prompts ++ [.error "Hotkey" "Please enter a valid hotkey."] }
  else
    let s1 := { s with config := { s.config with hotkey := hotkey } }
    let s2 := ShortcutApp.on_save s1
    { s2 with prompts := s2.prompts ++ [.info "Saved" "Settings saved. New hotkey is active now."] }

/-- Claim C3 fails on the code: `load` wraps `json.load` in no handler, so a
file that exists but is not valid JSON raises `JSONDecodeError`, and a file
whose JSON value is not an object raises `AttributeError` at `data.get`;
neither falls back to the defaults. -/
theorem load_malformed_raises :
    ConfigManager.load .invalid = .error .jsonDecodeError ∧
    ConfigManager.load (.json (.arr [])) = .error .attributeError :=
  ⟨rfl, rfl⟩

/-- Claim C3 (amended): only a missing file falls back to the default
configuration; an existing file with malformed content makes `load` fail
with an error (invalid JSON text raises `JSONDecodeError`, a non-object JSON
value raises `AttributeError`). -/
theorem load_default_only_when_missing :
    ConfigManager.load .missing =
      .ok { hotkey := "ctrl+shift+s",
            shortcuts := [{ title := "Win+E", description := "Open File Explorer" },
                          { title := "Win+L", description := "Lock the PC" }] } ∧
    ConfigManager.load .invalid = .error .jsonDecodeError ∧
    ∀ v : JsonVal, v.isObj = false → ConfigManager.load (.json v) = .error .attributeError := by
  refine ⟨rfl, rfl, ?_⟩
  intro v h
  cases v <;> first | rfl | simp [JsonVal.isObj] at h

theorem load_default_only_when_missing_witness :
    JsonVal.isObj .null = false ∧
    ConfigManager.load (.json .null) = .error .attributeError :=
  ⟨rfl, load_default_only_when_missing.2.2 .null rfl⟩

/-- A concrete application state used to instantiate theorems with
hypotheses. -/
def sampleState : AppState :=
  { config := { hotkey := "ctrl+shift+s",
                shortcuts := [{ title := "Win+E", description := "Open File Explorer" }] },
    file := .missing,
    hooks := ["ctrl+shift+s"],
    overlayVisible := false,
    overlayTree := [],
    settingsTree := [],
    prompts := [] }

/-- Claim C4: when the entered hotkey strips to the empty string,
`SettingsWindow.save` only shows the error dialog: the configuration, the
persisted file, the hooks, the tables and the visibility are all
unchanged. -/
theorem save_empty_hotkey_rejected (entered : String) (s : AppState)
    (h : pyStrip entered = "") :
    SettingsWindow.save entered s =
      { s with prompts := s.prompts ++ [.error "Hotkey" "Please enter a valid hotkey."] } := by
  simp [SettingsWindow.save, h]

theorem save_empty_hotkey_rejected_witness :
    pyStrip " " = "" ∧
    SettingsWindow.save " " sampleState =
      { sampleState with
          prompts := sampleState.prompts ++ [.error "Hotkey" "Please enter a valid hotkey."] } :=
  ⟨rfl, save_empty_hotkey_rejected " " sampleState rfl⟩

/-- Claim C5: the only operation that writes the persisted file is
`SettingsWindow.save`, and whenever it writes, the written configuration's
hotkey is non-empty (the empty-after-strip case returns before writing); the
editor operations, the overlay toggle and hotkey re-registration never touch
the file.  So the persisted form produced by any completed save carries a
non-empty hotkey. -/
theorem save_writes_nonempty_hotkey (entered : String) (s : AppState) :
    ((SettingsWindow.save entered s).file = s.file ∨
      ∃ c : AppConfig,
        (SettingsWindow.save entered s).file = .json (ConfigManager.save c) ∧ c.hotkey ≠ "") ∧
    (∀ title description, (SettingsWindow.add_item title description s).file = s.file) ∧
    (∀ sel title description,
      (SettingsWindow.edit_item sel title description s).file = s.file) ∧
    (∀ sel, (SettingsWindow.remove_item sel s).file = s.file) ∧
    (ShortcutOverlay.toggle s).file = s.file ∧
    (ShortcutApp.register_hotkey s).file = s.file := by
  refine ⟨?_, ?_, ?_, ?_, ?_, ?_⟩
  · by_cases h : pyStrip entered = ""
    · exact Or.inl (by simp [SettingsWindow.save, h])
    · refine Or.inr ⟨{ s.config with hotkey := pyStrip entered }, ?_, h⟩
      simp [SettingsWindow.save, h, ShortcutApp.on_save, ShortcutApp.register_hotkey,
        add_hotkey, unhook_all]
  · intro title description
    cases title with
    | none => rfl
    | some t =>
      by_cases ht : t = "" <;> cases description <;>
        simp [SettingsWindow.add_item, SettingsWindow.refresh, ht]
  · intro sel title description
    cases sel with
    | none => rfl
    | some i =>
      cases title with
      | none => rfl
      | some t =>
        by_cases ht : t = "" <;> cases description <;>
          simp [SettingsWindow.edit_item, SettingsWindow.refresh, ht]
  · intro sel
    cases sel <;> rfl
  · by_cases hv : s.overlayVisible = false <;>
      simp [ShortcutOverlay.toggle, ShortcutOverlay.show, ShortcutOverlay.hide,
        ShortcutOverlay.refresh, hv]
  · rfl

theorem save_writes_nonempty_hotkey_witness :
    (SettingsWindow.save "ctrl+q" sampleState).file = sampleState.file ∨
    ∃ c : AppConfig,
      (SettingsWindow.save "ctrl+q" sampleState).file = .json (ConfigManager.save c) ∧
        c.hotkey ≠ "" :=
  (save_writes_nonempty_hotkey "ctrl+q" sampleState).1

/-- Claim C6: a completed add (non-empty title, description supplied)
appends the new entry at the end, so the length grows by exactly one and the
pre-existing entries are unchanged in place; after the next show, the new
entry is a row of the overlay table. -/
theorem add_item_appends (t d : String) (s : AppState) (h : t ≠ "") :
    (SettingsWindow.add_item (some t) (some d) s).config.shortcuts =
      s.config.shortcuts ++ [{ title := t, description := d }] ∧
    (SettingsWindow.add_item (some t) (some d) s).config.shortcuts.length =
      s.config.shortcuts.length + 1 ∧
    (t, d) ∈ (ShortcutOverlay.show (SettingsWindow.add_item (some t) (some d) s)).overlayTree := by
  refine ⟨?_, ?_, ?_⟩ <;>
    simp [SettingsWindow.add_item, h, SettingsWindow.refresh, ShortcutOverlay.show,
      ShortcutOverlay.refresh]

theorem add_item_appends_witness :
    ("Win+L" : String) ≠ "" ∧
    ((SettingsWindow.add_item (some "Win+L") (some "Lock the PC") sampleState).config.shortcuts =
      sampleState.config.shortcuts ++ [{ title := "Win+L", description := "Lock the PC" }] ∧
    (SettingsWindow.add_item (some "Win+L") (some "Lock the PC")
        sampleState).config.shortcuts.length =
      sampleState.config.shortcuts.length + 1 ∧
    ("Win+L", "Lock the PC") ∈
      (ShortcutOverlay.show (SettingsWindow.add_item (some "Win+L") (some "Lock the PC")
        sampleState)).overlayTree) :=
  ⟨by decide, add_item_appends "Win+L" "Lock the PC" sampleState (by decide)⟩

/-- Claim C7: removing the entry at a valid selected index deletes exactly
that entry (the list becomes the entries before it followed by the entries
after it) and shortens the list by one; in particular removing the only
remaining entry yields the empty list, with no error raised. -/
theorem remove_item_shortens (i : Nat) (s : AppState) (h : i < s.config.shortcuts.length) :
    (SettingsWindow.remove_item (some i) s).config.shortcuts =
      s.config.shortcuts.take i ++ s.config.shortcuts.drop (i + 1) ∧
    (SettingsWindow.remove_item (some i) s).config.shortcuts.length =
      s.config.shortcuts.length - 1 ∧
    (s.config.shortcuts.length = 1 →
      (SettingsWindow.remove_item (some i) s).config.shortcuts = []) := by
  have herase : (SettingsWindow.remove_item (some i) s).config.shortcuts =
      s.config.shortcuts.eraseIdx i := rfl
  have hlen : (s.config.shortcuts.eraseIdx i).length = s.config.shortcuts.length - 1 := by
    have := List.length_eraseIdx_add_one h
    omega
  refine ⟨?_, ?_, ?_⟩
  · rw [herase, List.eraseIdx_eq_take_drop_succ]
  · rw [herase, hlen]
  · intro h1
    have : (SettingsWindow.remove_item (some i) s).config.shortcuts.length = 0 := by
      rw [herase, hlen, h1]
    exact List.eq_nil_of_length_eq_zero this

theorem remove_item_shortens_witness :
    0 < sampleState.config.shortcuts.length ∧
    ((SettingsWindow.remove_item (some 0) sampleState).config.shortcuts =
      sampleState.config.shortcuts.take 0 ++ sampleState.config.shortcuts.drop 1 ∧
    (SettingsWindow.remove_item (some 0) sampleState).config.shortcuts.length =
      sampleState.config.shortcuts.length - 1 ∧
    (sampleState.config.shortcuts.length = 1 →
      (SettingsWindow.remove_item (some 0) sampleState).config.shortcuts = [])) :=
  ⟨by decide, remove_item_shortens 0 sampleState (by decide)⟩

/-- Claim C8: the toggle shows the overlay exactly when it was withdrawn and
withdraws it exactly when it was shown, so its visibility after one toggle
is the negation of what it was, and after two toggles it is back to its
starting value. -/
theorem toggle_flips_visibility (s : AppState) :
    (ShortcutOverlay.toggle s).overlayVisible = !s.overlayVisible ∧
    (ShortcutOverlay.toggle (ShortcutOverlay.toggle s)).overlayVisible = s.overlayVisible := by
  cases hv : s.overlayVisible <;>
    simp [ShortcutOverlay.toggle, ShortcutOverlay.show, ShortcutOverlay.hide,
      ShortcutOverlay.refresh, hv]

/-- Claim C9: re-registration is `unhook_all` followed by one `add_hotkey`,
so after `register_hotkey` the installed bindings are exactly the one current
hotkey: never more than one binding is active, and any different previously
bound combination is no longer hooked.  After a completed save, the active
binding is the newly entered (stripped) hotkey. -/
theorem register_hotkey_single_binding (s : AppState) :
    ShortcutApp.register_hotkey s = add_hotkey s.config.hotkey (unhook_all s) ∧
    (unhook_all s).hooks = [] ∧
    (ShortcutApp.register_hotkey s).hooks = [s.config.hotkey] ∧
    (ShortcutApp.register_hotkey s).hooks.length ≤ 1 ∧
    (∀ old : String, old ≠ s.config.hotkey → old ∉ (ShortcutApp.register_hotkey s).hooks) ∧
    (∀ entered : String, pyStrip entered ≠ "" →
      (SettingsWindow.save entered s).hooks = [pyStrip entered]) := by
  refine ⟨rfl, rfl, rfl, by simp [ShortcutApp.register_hotkey, add_hotkey, unhook_all], ?_, ?_⟩
  · intro old hold
    simp [ShortcutApp.register_hotkey, add_hotkey, unhook_all, hold]
  · intro entered h
    simp [SettingsWindow.save, h, ShortcutApp.on_save, ShortcutApp.register_hotkey,
      add_hotkey, unhook_all]

theorem register_hotkey_single_binding_witness :
    ("alt+x" : String) ≠ sampleState.config.hotkey ∧
    "alt+x" ∉ (ShortcutApp.register_hotkey sampleState).hooks ∧
    pyStrip "ctrl+q" ≠ "" ∧
    (SettingsWindow.save "ctrl+q" sampleState).hooks = [pyStrip "ctrl+q"] :=
  ⟨by decide, (register_hotkey_single_binding sampleState).2.2.2.2.1 "alt+x" (by decide),
    by decide, (register_hotkey_single_binding sampleState).2.2.2.2.2 "ctrl+q" (by decide)⟩

/-- Claim C10: on a file that parses to an object, a missing `"hotkey"` key
makes a successful load return the default hotkey, and a missing
`"shortcuts"` key makes a successful load return the empty entry list (not
the two seeded entries). -/
theorem load_missing_fields (kvs : List (String × JsonVal)) (cfg : AppConfig) :
    (kvs.lookup "hotkey" = none →
      ConfigManager.load (.json (.obj kvs)) = .ok cfg → cfg.hotkey = "ctrl+shift+s") ∧
    (kvs.lookup "shortcuts" = none →
      ConfigManager.load (.json (.obj kvs)) = .ok cfg → cfg.shortcuts = []) := by
  constructor
  · intro h1 h2
    rcases hIt : pyIter (dictGet kvs "shortcuts" (.arr [])) with e | items <;>
      simp [ConfigManager.load, hIt] at h2
    rcases hLd : loadItems items with e | shortcuts <;> simp [hLd] at h2
    rw [dictGet, h1] at h2
    simp [asStr] at h2
    rw [← h2]
  · intro h1 h2
    rw [ConfigManager.load, dictGet, h1] at h2
    simp [pyIter, loadItems] at h2
    rcases hk : asStr (dictGet kvs "hotkey" (.str "ctrl+shift+s")) with e | hk <;>
      simp [hk] at h2
    rw [← h2]

theorem load_missing_fields_witness :
    ([] : List (String × JsonVal)).lookup "hotkey" = none ∧
    ([] : List (String × JsonVal)).lookup "shortcuts" = none ∧
    ConfigManager.load (.json (.obj [])) =
      .ok { hotkey := "ctrl+shift+s", shortcuts := [] } ∧
    ({ hotkey := "ctrl+shift+s", shortcuts := [] } : AppConfig).hotkey = "ctrl+shift+s" ∧
    ({ hotkey := "ctrl+shift+s", shortcuts := [] } : AppConfig).shortcuts = [] :=
  ⟨rfl, rfl, rfl,
    (load_missing_fields [] { hotkey := "ctrl+shift+s", shortcuts := [] }).1 rfl rfl,
    (load_missing_fields [] { hotkey := "ctrl+shift+s", shortcuts := [] }).2 rfl rfl⟩
